import Mathlib

/-!
Shallow embedding of the template-lifecycle controller of `pgdbtemplate`
(`template_manager.go`, package `pgdbtemplate`).

External collaborators (connection provider, database connections, the
migration runner and the database engine behind them) are modelled as
environment records listing the outcome (`none` = success, `some e` =
failure with error `e`) of each external call the code makes, in program
order.  Each operation of the controller is embedded as a pure function
from the manager's configuration, its mutable state and such an
environment to the returned error/value, the successor state and the
trace of external actions it performed.
-/

namespace Pgdbtemplate

/-- Go `error` values as built by this code base: base errors produced by
collaborators, the two distinguished no-rows sentinels `sql.ErrNoRows` and
`pgx.ErrNoRows`, `fmt.Errorf("<msg>: %w", e)` wrapping, and
`errors.Join` of two non-nil errors. -/
inductive GoErr where
  | base : String → GoErr
  | sqlErrNoRows : GoErr
  | pgxErrNoRows : GoErr
  | wrap : String → GoErr → GoErr
  | join : GoErr → GoErr → GoErr
deriving DecidableEq, Repr

/-- The semantics of Go `errors.Is(e, target)`: `target` is found at the
top of `e`, inside a `%w` wrap, or in either branch of a join. -/
def errIs : GoErr → GoErr → Bool
  | e, t =>
    e == t ||
      match e with
      | .wrap _ inner => errIs inner t
      | .join a b => errIs a t || errIs b t
      | _ => false

/-- Go `errors.Join(a, b)` restricted to two operands, as used by this
code: `nil` operands are dropped and two non-nil errors form a join. -/
def goJoin : Option GoErr → Option GoErr → Option GoErr
  | none, b => b
  | some a, none => some a
  | some a, some b => some (.join a b)

/-- The `pq.QuoteIdentifier` function: truncate at the first NUL rune,
double every embedded double quote, and wrap in double quotes. -/
def quoteIdentifier (name : String) : String :=
  let t := String.mk (name.toList.takeWhile (fun c => c ≠ Char.ofNat 0))
  "\"" ++ t.replace "\"" "\"\"" ++ "\""

/-- A single-quote character, used to build SQL literals. -/
def sqChar : Char := Char.ofNat 39

/-- The `pq.QuoteLiteral` function: double embedded single quotes, and if
a backslash is present escape backslashes and use the `E''` form. -/
def quoteLiteral (lit : String) : String :=
  let sq := String.mk [sqChar]
  let l := lit.replace sq (sq ++ sq)
  if l.toList.contains (Char.ofNat 92) then
    (" E" ++ sq) ++ l.replace "\\" "\\\\" ++ sq
  else
    sq ++ l ++ sq

/-- The `%q` format verb (`strconv.Quote`) on database names: the string
wrapped in double quotes with embedded backslashes and double quotes
escaped (escaping of control characters is not modelled; the code only
formats database names with `%q`). -/
def goQuote (s : String) : String :=
  "\"" ++ (s.replace "\\" "\\\\").replace "\"" (String.mk [Char.ofNat 92, Char.ofNat 34]) ++ "\""

/-- Decidable equality for `Except` results, used to evaluate the
embedding at concrete inputs. -/
instance {e a : Type} [DecidableEq e] [DecidableEq a] : DecidableEq (Except e a) := fun x y =>
  match x, y with
  | .ok u, .ok v =>
    if h : u = v then .isTrue (by rw [h]) else .isFalse (by simp [h])
  | .error u, .error v =>
    if h : u = v then .isTrue (by rw [h]) else .isFalse (by simp [h])
  | .ok _, .error _ => .isFalse (by simp)
  | .error _, .ok _ => .isFalse (by simp)

/-- One external action performed by the controller: opening a connection
to a named database, `ExecContext` / `QueryRowContext` on the connection
to `connDb` with the given SQL text and arguments, or a call to the
migration runner against the connection to `connDb`. -/
inductive Event where
  | connect : String → Event
  | exec : String → String → List String → Event
  | queryRow : String → String → List String → Event
  | runMigrations : String → Event
deriving DecidableEq, Repr

/-- The immutable configuration of a `TemplateManager` (the provider and
migrator collaborators live in the environment records instead).  The
source field `testPrefix` is embedded under the name `testPfx`. -/
structure TemplateManager where
  templateName : String
  testPfx : String
  adminDBName : String
deriving DecidableEq, Repr

/-- The mutable state of a `TemplateManager`: the `initialized` flag and
the set of tracked test databases (`createdTestDBs`, a `sync.Map` used as
a set of names). -/
structure TMState where
  initialized : Bool
  createdTestDBs : List String
deriving DecidableEq, Repr

/-- `sync.Map.Store(name, true)` viewed as a set insertion. -/
def storeName (n : String) (l : List String) : List String :=
  if n ∈ l then l else l ++ [n]

/-- `sync.Map.Delete(name)` viewed as a set removal. -/
def deleteName (n : String) (l : List String) : List String :=
  l.filter (fun m => m ≠ n)

/-- The default administrative database name (`defaultAdminDBName`). -/
def defaultAdminDBName : String := "postgres"

/-- The template-existence probe issued by `createTemplateDatabase`. -/
def checkTemplateQuery : String := "SELECT TRUE FROM pg_database WHERE datname = $1 LIMIT 1"

/-- The `CREATE DATABASE` statement for a plain (template) database. -/
def createDatabaseQuery (name : String) : String :=
  "CREATE DATABASE " ++ quoteIdentifier name

/-- The `CREATE DATABASE ... TEMPLATE ...` statement used for test
databases. -/
def createTestDatabaseQuery (name tmplName : String) : String :=
  "CREATE DATABASE " ++ quoteIdentifier name ++ " TEMPLATE " ++ quoteIdentifier tmplName

/-- The `DROP DATABASE` statement.  Note: no `IF EXISTS` qualifier. -/
def dropDatabaseQuery (name : String) : String :=
  "DROP DATABASE " ++ quoteIdentifier name

/-- The `ALTER DATABASE ... WITH is_template TRUE` statement. -/
def markTemplateQuery (name : String) : String :=
  "ALTER DATABASE " ++ quoteIdentifier name ++ " WITH is_template TRUE"

/-- The `ALTER DATABASE ... WITH is_template FALSE` statement. -/
def unmarkTemplateQuery (name : String) : String :=
  "ALTER DATABASE " ++ quoteIdentifier name ++ " WITH is_template FALSE"

/-- Outcomes of the external calls `createTemplateDatabase` makes, in
program order.  `templateExistsScan` is the error returned by `Scan` on
the existence probe (`none` means a row was found, i.e. the template
already exists); `compensatingDrop` is the outcome of the deferred
`DROP DATABASE` of the template, consulted only when a step after the
`CREATE DATABASE` fails. -/
structure InitEnv where
  adminConnect : Option GoErr
  templateExistsScan : Option GoErr
  createExec : Option GoErr
  templateConnect : Option GoErr
  runMigrations : Option GoErr
  markTemplate : Option GoErr
  compensatingDrop : Option GoErr
deriving Repr

/-- Embedding of `TemplateManager.createTemplateDatabase`. -/
def createTemplateDatabase (tm : TemplateManager) (env : InitEnv) :
    Option GoErr × List Event :=
  match env.adminConnect with
  | some e => (some (.wrap "failed to connect to admin database" e), [.connect tm.adminDBName])
  | none =>
    let tr0 : List Event :=
      [.connect tm.adminDBName, .queryRow tm.adminDBName checkTemplateQuery [tm.templateName]]
    match env.templateExistsScan with
    | none => (none, tr0)
    | some scanErr =>
      if !errIs scanErr .sqlErrNoRows && !errIs scanErr .pgxErrNoRows then
        (some (.wrap "failed to check if template exists" scanErr), tr0)
      else
        let tr1 := tr0 ++ [Event.exec tm.adminDBName (createDatabaseQuery tm.templateName) []]
        match env.createExec with
        | some e => (some (.wrap "failed to create template database" e), tr1)
        | none =>
          let inner : Option GoErr × List Event :=
            match env.templateConnect with
            | some e =>
              (some (.wrap "failed to connect to template database" e), [.connect tm.templateName])
            | none =>
              match env.runMigrations with
              | some e =>
                (some (.wrap "failed to run migrations on template" e),
                 [.connect tm.templateName, .runMigrations tm.templateName])
              | none =>
                match env.markTemplate with
                | some e =>
                  (some (.wrap "failed to mark database as template" e),
                   [.connect tm.templateName, .runMigrations tm.templateName,
                    .exec tm.adminDBName (markTemplateQuery tm.templateName) []])
                | none =>
                  (none,
                   [.connect tm.templateName, .runMigrations tm.templateName,
                    .exec tm.adminDBName (markTemplateQuery tm.templateName) []])
          match inner with
          | (none, trI) => (none, tr1 ++ trI)
          | (some e, trI) =>
            let trD := tr1 ++ trI ++
              [Event.exec tm.adminDBName (dropDatabaseQuery tm.templateName) []]
            match env.compensatingDrop with
            | none => (some e, trD)
            | some de =>
              (some (.join e (.wrap "failed to drop template database" de)), trD)

/-- Embedding of `TemplateManager.Initialize`. -/
def Initialize (tm : TemplateManager) (s : TMState) (env : InitEnv) :
    Option GoErr × TMState × List Event :=
  if s.initialized then (none, s, [])
  else
    match createTemplateDatabase tm env with
    | (some e, tr) => (some (.wrap "failed to create template database" e), s, tr)
    | (none, tr) => (none, { s with initialized := true }, tr)

/-- Go `atomic.AddInt64(&c, 1)` on an `int64`: increment with two's
complement wraparound at the 64-bit boundary. -/
def addInt64 (c : Int) : Int :=
  (c + 1 + 2 ^ 63) % 2 ^ 64 - 2 ^ 63

/-- The value of the process-wide atomic counter after `k` increments
starting from `c0` (Go initialises the global counters to `0`). -/
def iterCtr (c0 : Int) : Nat → Int
  | 0 => c0
  | k + 1 => addInt64 (iterCtr c0 k)

/-- The auto-generated test database name,
`fmt.Sprintf("%s%d_%d", tm.testPrefix, now, counter)`. -/
def generatedTestDBName (tm : TemplateManager) (nowNanos ctr : Int) : String :=
  tm.testPfx ++ toString nowNanos ++ "_" ++ toString ctr

/-- Outcomes of the external calls `CreateTestDatabase` makes, in program
order.  `compensatingDrop` is the outcome of the deferred `DROP DATABASE`
of the test database, consulted only when connecting to it fails. -/
structure CreateEnv where
  adminConnect : Option GoErr
  createExec : Option GoErr
  testConnect : Option GoErr
  compensatingDrop : Option GoErr
deriving Repr

/-- The name-resolution step of `CreateTestDatabase`: a non-empty first
optional argument is used as is and the counter is untouched; otherwise
the name is generated from the prefix, the timestamp and the atomically
incremented counter. -/
def resolveTestDBName (tm : TemplateManager) (ctr nowNanos : Int) (testDBName : List String) :
    String × Int :=
  match testDBName with
  | n :: _ =>
    if n ≠ "" then (n, ctr)
    else (generatedTestDBName tm nowNanos (addInt64 ctr), addInt64 ctr)
  | [] => (generatedTestDBName tm nowNanos (addInt64 ctr), addInt64 ctr)

/-- Embedding of `TemplateManager.CreateTestDatabase`.  `ctr` is the
current value of the process-wide `globalTestDBCounter`, `nowNanos` the
value `time.Now().UnixNano()` would return, and `testDBName` the variadic
optional-name argument.  The result carries the returned error or the
resolved name, the successor state, the successor counter and the trace. -/
def CreateTestDatabase (tm : TemplateManager) (s : TMState) (ctr nowNanos : Int)
    (env : CreateEnv) (testDBName : List String) :
    Except GoErr String × TMState × Int × List Event :=
  let dbName := (resolveTestDBName tm ctr nowNanos testDBName).1
  let ctr' := (resolveTestDBName tm ctr nowNanos testDBName).2
  match env.adminConnect with
  | some e =>
    (.error (.wrap "failed to connect to admin database" e), s, ctr', [.connect tm.adminDBName])
  | none =>
    let tr1 : List Event :=
      [.connect tm.adminDBName,
       .exec tm.adminDBName (createTestDatabaseQuery dbName tm.templateName) []]
    match env.createExec with
    | some e =>
      (.error (.wrap ("failed to create test database " ++ dbName) e), s, ctr', tr1)
    | none =>
      match env.testConnect with
      | none =>
        (.ok dbName, { s with createdTestDBs := storeName dbName s.createdTestDBs }, ctr',
         tr1 ++ [Event.connect dbName])
      | some ce =>
        let orig := GoErr.wrap "failed to connect to test database" ce
        let trD := tr1 ++ [Event.connect dbName, .exec tm.adminDBName (dropDatabaseQuery dbName) []]
        match env.compensatingDrop with
        | none =>
          (.error orig, { s with createdTestDBs := deleteName dbName s.createdTestDBs }, ctr', trD)
        | some de =>
          (.error (.join orig (.wrap ("failed to drop test database " ++ goQuote dbName) de)),
           s, ctr', trD)

/-- The session-termination query of `DropTestDatabase` (a raw Go string
literal, reproduced with its original whitespace). -/
def terminateSingleQuery : String :=
  "\n\t   SELECT pg_terminate_backend(pid) \n\t   FROM pg_stat_activity \n\t   WHERE datname = $1 AND pid <> pg_backend_pid()\n\t"

/-- Outcomes of the external calls `DropTestDatabase` makes, in program
order. -/
structure DropEnv where
  templateConnect : Option GoErr
  terminateExec : Option GoErr
  dropExec : Option GoErr
deriving Repr

/-- Embedding of `TemplateManager.DropTestDatabase`. -/
def DropTestDatabase (tm : TemplateManager) (s : TMState) (env : DropEnv) (dbName : String) :
    Option GoErr × TMState × List Event :=
  match env.templateConnect with
  | some e =>
    (some (.wrap "failed to connect to template database" e), s, [.connect tm.templateName])
  | none =>
    let tr1 : List Event :=
      [.connect tm.templateName, .exec tm.templateName terminateSingleQuery [dbName]]
    match env.terminateExec with
    | some e =>
      (some (.wrap ("failed to terminate connections to database " ++ goQuote dbName) e), s, tr1)
    | none =>
      let tr2 := tr1 ++ [Event.exec tm.templateName (dropDatabaseQuery dbName) []]
      match env.dropExec with
      | some e => (some (.wrap ("failed to drop database " ++ dbName) e), s, tr2)
      | none => (none, { s with createdTestDBs := deleteName dbName s.createdTestDBs }, tr2)

/-- The batched session-termination query of `batchTerminateConnections`
(`fmt.Sprintf` over a raw Go string literal, reproduced with its original
whitespace). -/
def batchTerminateQuery (dbNames : List String) : String :=
  "\n\t\tSELECT pg_terminate_backend(pid) \n\t\tFROM pg_stat_activity \n\t\tWHERE datname IN (" ++
    String.intercalate ", " (dbNames.map quoteLiteral) ++ ") AND pid <> pg_backend_pid()\n\t"

/-- Outcomes of the external calls `Cleanup` makes: the administrative
connection, the batched session termination, the `DROP DATABASE` of each
tracked test database (by name), the unmark of the template and the
`DROP DATABASE` of the template. -/
structure CleanupEnv where
  adminConnect : Option GoErr
  batchTerminate : Option GoErr
  dropTest : String → Option GoErr
  unmarkExec : Option GoErr
  dropTemplateExec : Option GoErr

/-- The per-database drop loop of `cleanupTrackedTestDatabases`: given the
snapshot of names still to process, the accumulated error and the current
tracked set, it accumulates drop failures with `errors.Join` and removes a
name from the tracked set only on successful drop. -/
def dropLoop (tm : TemplateManager) (env : CleanupEnv) :
    List String → Option GoErr → List String → Option GoErr × List String × List Event
  | [], errs, tracked => (errs, tracked, [])
  | n :: rest, errs, tracked =>
    let ev := Event.exec tm.adminDBName (dropDatabaseQuery n) []
    match env.dropTest n with
    | some e =>
      let r := dropLoop tm env rest
        (goJoin errs (some (.wrap ("failed to drop database " ++ goQuote n) e))) tracked
      (r.1, r.2.1, ev :: r.2.2)
    | none =>
      let r := dropLoop tm env rest errs (deleteName n tracked)
      (r.1, r.2.1, ev :: r.2.2)

/-- Embedding of `TemplateManager.cleanupTrackedTestDatabases` (the
administrative connection is already open; its trace events are added by
`Cleanup`). -/
def cleanupTrackedTestDatabases (tm : TemplateManager) (s : TMState) (env : CleanupEnv) :
    Option GoErr × TMState × List Event :=
  let dbNames := s.createdTestDBs
  if dbNames.isEmpty then (none, s, [])
  else
    let errs0 : Option GoErr :=
      match env.batchTerminate with
      | some e => some (.wrap "failed to terminate connections for some databases" e)
      | none => none
    let r := dropLoop tm env dbNames errs0 dbNames
    (r.1, { s with createdTestDBs := r.2.1 },
     Event.exec tm.adminDBName (batchTerminateQuery dbNames) [] :: r.2.2)

/-- Embedding of `TemplateManager.dropTemplateDatabase` (the unmark error
is wrapped; the drop error is returned as is). -/
def dropTemplateDatabase (tm : TemplateManager) (env : CleanupEnv) :
    Option GoErr × List Event :=
  let tr1 : List Event := [.exec tm.adminDBName (unmarkTemplateQuery tm.templateName) []]
  match env.unmarkExec with
  | some e => (some (.wrap "failed to unmark template database" e), tr1)
  | none =>
    (env.dropTemplateExec,
     tr1 ++ [Event.exec tm.adminDBName (dropDatabaseQuery tm.templateName) []])

/-- Embedding of `TemplateManager.Cleanup`. -/
def Cleanup (tm : TemplateManager) (s : TMState) (env : CleanupEnv) :
    Option GoErr × TMState × List Event :=
  if !s.initialized then (none, s, [])
  else
    match env.adminConnect with
    | some e =>
      (some (.wrap "failed to connect to admin database" e), s, [.connect tm.adminDBName])
    | none =>
      let r1 := cleanupTrackedTestDatabases tm s env
      let errs : Option GoErr := r1.1.map (.wrap "failed to clean up tracked test databases")
      let r2 := dropTemplateDatabase tm env
      let errs := goJoin errs (r2.1.map (.wrap "failed to drop template database"))
      (errs, { r1.2.1 with initialized := false },
       Event.connect tm.adminDBName :: (r1.2.2 ++ r2.2))

/-- The configuration record `Config`.  The collaborator fields are
modelled by their nilness (`hasConnectionProvider`, `hasMigrationRunner`)
and by the string the provider returns from
`GetConnectionString(defaultAdminDBName)`.  The source field
`TestDBPrefix` is embedded under the name `TestDBPfx`. -/
structure Config where
  hasConnectionProvider : Bool
  hasMigrationRunner : Bool
  adminConnString : String
  TemplateName : String
  TestDBPfx : String
  AdminDBName : String
deriving Repr

/-- Go `strings.TrimSpace`: leading and trailing whitespace removed
(restricted to the ASCII whitespace characters `Char.isWhitespace`
recognises; the code only uses it to detect blank strings). -/
def trimSpace (s : String) : String :=
  String.mk (((s.toList.dropWhile Char.isWhitespace).reverse.dropWhile Char.isWhitespace).reverse)

/-- Embedding of `isPostgresConnectionString`: empty (all-whitespace)
strings are rejected; otherwise the string is accepted exactly when
`pgx.ParseConfig` succeeds on it, modelled by the predicate
`pgxParseOk` since the parser is an external library. -/
def isPostgresConnectionString (pgxParseOk : String → Bool) (connStr : String) : Bool :=
  if trimSpace connStr = "" then false else pgxParseOk connStr

/-- The auto-generated template name,
`fmt.Sprintf("template_db_%d_%d", now, counter)`. -/
def generatedTemplateName (nowNanos ctr : Int) : String :=
  "template_db_" ++ toString nowNanos ++ "_" ++ toString ctr

/-- Embedding of `NewTemplateManager`.  `tmplCtr` is the current value of
the process-wide `globalTemplateCounter` and `nowNanos` the value
`time.Now().UnixNano()` would return when a template name is generated. -/
def NewTemplateManager (pgxParseOk : String → Bool) (config : Config)
    (nowNanos tmplCtr : Int) : Except GoErr TemplateManager :=
  if !config.hasConnectionProvider then
    .error (.base "ConnectionProvider is required")
  else if !config.hasMigrationRunner then
    .error (.base "MigrationRunner is required")
  else if !isPostgresConnectionString pgxParseOk config.adminConnString then
    .error (.base ("TemplateManager requires a PostgreSQL connection string, got: " ++
      config.adminConnString))
  else
    .ok
      { templateName :=
          if config.TemplateName = "" then generatedTemplateName nowNanos (addInt64 tmplCtr)
          else config.TemplateName,
        testPfx := if config.TestDBPfx = "" then "test_" else config.TestDBPfx,
        adminDBName := if config.AdminDBName = "" then defaultAdminDBName else config.AdminDBName }

/-! ## Theorems about the claims -/

/-- C9: a `CreateTestDatabase` call whose first optional name argument is
the empty string behaves exactly as if no name argument had been
supplied: the full result (returned value, state, counter and trace) is
identical, and when the call succeeds the resolved name it returns is the
auto-generated one (configured prefix plus timestamp plus counter). -/
theorem createTestDatabase_empty_name_as_omitted :
    (∀ tm s ctr now env,
       CreateTestDatabase tm s ctr now env [""] = CreateTestDatabase tm s ctr now env []) ∧
    (∀ tm s ctr now env, env.adminConnect = none → env.createExec = none →
       env.testConnect = none →
       (CreateTestDatabase tm s ctr now env [""]).1 =
         .ok (generatedTestDBName tm now (addInt64 ctr))) := by
  constructor
  · intro tm s ctr now env
    simp [CreateTestDatabase, resolveTestDBName]
  · intro tm s ctr now env h1 h2 h3
    simp [CreateTestDatabase, resolveTestDBName, h1, h2, h3]

/-- Witness for C9: a concrete all-success call with the empty-string
name argument resolves to the generated name. -/
theorem createTestDatabase_empty_name_as_omitted_witness :
    (CreateTestDatabase ⟨"tmpl", "test_", "postgres"⟩ ⟨true, []⟩ 0 5
        ⟨none, none, none, none⟩ [""]).1 =
      .ok (generatedTestDBName ⟨"tmpl", "test_", "postgres"⟩ 5 (addInt64 0)) :=
  createTestDatabase_empty_name_as_omitted.2 ⟨"tmpl", "test_", "postgres"⟩ ⟨true, []⟩ 0 5
    ⟨none, none, none, none⟩ rfl rfl rfl

/-- C7: `DropTestDatabase` issues the session-termination query first and
then a `DROP DATABASE` statement that is exactly `DROP DATABASE` plus the
quoted name — no `IF EXISTS` qualifier — so when the engine reports that
the database does not exist the call returns that failure wrapped in a
`failed to drop database` error; it is never treated as success. -/
theorem dropTestDatabase_drop_error_surfaced (tm : TemplateManager) (s : TMState)
    (env : DropEnv) (dbName : String) (e : GoErr)
    (hconn : env.templateConnect = none) (hterm : env.terminateExec = none)
    (hdrop : env.dropExec = some e) :
    (DropTestDatabase tm s env dbName).1 =
      some (.wrap ("failed to drop database " ++ dbName) e) ∧
    (DropTestDatabase tm s env dbName).2.2 =
      [.connect tm.templateName,
       .exec tm.templateName terminateSingleQuery [dbName],
       .exec tm.templateName ("DROP DATABASE " ++ quoteIdentifier dbName) []] := by
  simp [DropTestDatabase, hconn, hterm, hdrop, dropDatabaseQuery]

/-- Witness for C7: a concrete drop of a never-created database where the
engine reports `does not exist` returns an error and the exact
unqualified `DROP DATABASE` statement was issued after the termination
query. -/
theorem dropTestDatabase_drop_error_surfaced_witness :
    (DropTestDatabase ⟨"tmpl", "test_", "postgres"⟩ ⟨true, []⟩
        ⟨none, none, some (.base "pq: database \"ghost\" does not exist")⟩ "ghost").1 =
      some (.wrap ("failed to drop database " ++ "ghost")
        (.base "pq: database \"ghost\" does not exist")) ∧
    (DropTestDatabase ⟨"tmpl", "test_", "postgres"⟩ ⟨true, []⟩
        ⟨none, none, some (.base "pq: database \"ghost\" does not exist")⟩ "ghost").2.2 =
      [.connect "tmpl",
       .exec "tmpl" terminateSingleQuery ["ghost"],
       .exec "tmpl" ("DROP DATABASE " ++ quoteIdentifier "ghost") []] :=
  dropTestDatabase_drop_error_surfaced ⟨"tmpl", "test_", "postgres"⟩ ⟨true, []⟩
    ⟨none, none, some (.base "pq: database \"ghost\" does not exist")⟩ "ghost"
    (.base "pq: database \"ghost\" does not exist") rfl rfl rfl

/-- C4: in `CreateTestDatabase`, once the test database has been created,
a failure to connect to it makes the call issue a compensating
`DROP DATABASE` of that test database over the still-open administrative
connection (the drop is executed on the `adminDBName` connection, after
the connect attempt) and return the `failed to connect to test database`
error; if the compensating drop also fails its error is joined with the
connect error, discarding neither. -/
theorem createTestDatabase_connect_failure_compensation (tm : TemplateManager) (s : TMState)
    (ctr nowNanos : Int) (env : CreateEnv) (testDBName : List String) (ce : GoErr)
    (h1 : env.adminConnect = none) (h2 : env.createExec = none)
    (h3 : env.testConnect = some ce) :
    ∃ dbName,
      (CreateTestDatabase tm s ctr nowNanos env testDBName).2.2.2 =
        [.connect tm.adminDBName,
         .exec tm.adminDBName (createTestDatabaseQuery dbName tm.templateName) [],
         .connect dbName,
         .exec tm.adminDBName (dropDatabaseQuery dbName) []] ∧
      (CreateTestDatabase tm s ctr nowNanos env testDBName).1 =
        .error (match env.compensatingDrop with
          | none => .wrap "failed to connect to test database" ce
          | some de =>
            .join (.wrap "failed to connect to test database" ce)
              (.wrap ("failed to drop test database " ++ goQuote dbName) de)) := by
  refine ⟨(resolveTestDBName tm ctr nowNanos testDBName).1, ?_⟩
  cases hd : env.compensatingDrop <;>
    simp [CreateTestDatabase, h1, h2, h3, hd]

/-- Witness for C4: a concrete call with a caller-supplied name where the
connect to the new database fails and the compensating drop also fails
returns the join of both errors, and the compensating drop was issued on
the administrative connection. -/
theorem createTestDatabase_connect_failure_compensation_witness :
    ∃ dbName,
      (CreateTestDatabase ⟨"tmpl", "test_", "postgres"⟩ ⟨true, []⟩ 0 5
          ⟨none, none, some (.base "conn refused"), some (.base "drop failed")⟩
          ["mydb"]).2.2.2 =
        [.connect "postgres",
         .exec "postgres" (createTestDatabaseQuery dbName "tmpl") [],
         .connect dbName,
         .exec "postgres" (dropDatabaseQuery dbName) []] ∧
      (CreateTestDatabase ⟨"tmpl", "test_", "postgres"⟩ ⟨true, []⟩ 0 5
          ⟨none, none, some (.base "conn refused"), some (.base "drop failed")⟩
          ["mydb"]).1 =
        .error (match (some (.base "drop failed") : Option GoErr) with
          | none => .wrap "failed to connect to test database" (.base "conn refused")
          | some de =>
            .join (.wrap "failed to connect to test database" (.base "conn refused"))
              (.wrap ("failed to drop test database " ++ goQuote dbName) de)) :=
  createTestDatabase_connect_failure_compensation ⟨"tmpl", "test_", "postgres"⟩ ⟨true, []⟩ 0 5
    ⟨none, none, some (.base "conn refused"), some (.base "drop failed")⟩
    ["mydb"] (.base "conn refused") rfl rfl rfl

/-- C10: `NewTemplateManager` returns an error (and no manager) when the
`ConnectionProvider` is nil, the `MigrationRunner` is nil, or the
provider's admin connection string fails the PostgreSQL check (with
blank strings always failing that check); on success every defaulting
rule applies: an empty `TemplateName` becomes the generated unique name,
an empty `TestDBPrefix` becomes `test_`, an empty `AdminDBName` becomes
`postgres`, and none of the three resulting fields is empty. -/
theorem newTemplateManager_validation :
    (∀ f (config : Config) now ctr, config.hasConnectionProvider = false →
       NewTemplateManager f config now ctr = .error (.base "ConnectionProvider is required")) ∧
    (∀ f (config : Config) now ctr, config.hasConnectionProvider = true →
       config.hasMigrationRunner = false →
       NewTemplateManager f config now ctr = .error (.base "MigrationRunner is required")) ∧
    (∀ f (config : Config) now ctr, config.hasConnectionProvider = true →
       config.hasMigrationRunner = true →
       isPostgresConnectionString f config.adminConnString = false →
       NewTemplateManager f config now ctr =
         .error (.base ("TemplateManager requires a PostgreSQL connection string, got: " ++
           config.adminConnString))) ∧
    (∀ f s, trimSpace s = "" → isPostgresConnectionString f s = false) ∧
    (∀ f (config : Config) now ctr tm, NewTemplateManager f config now ctr = .ok tm →
       tm.templateName ≠ "" ∧ tm.testPfx ≠ "" ∧ tm.adminDBName ≠ "" ∧
       (config.TemplateName = "" → tm.templateName = generatedTemplateName now (addInt64 ctr)) ∧
       (config.TemplateName ≠ "" → tm.templateName = config.TemplateName) ∧
       (config.TestDBPfx = "" → tm.testPfx = "test_") ∧
       (config.TestDBPfx ≠ "" → tm.testPfx = config.TestDBPfx) ∧
       (config.AdminDBName = "" → tm.adminDBName = "postgres") ∧
       (config.AdminDBName ≠ "" → tm.adminDBName = config.AdminDBName)) := by
  refine ⟨?_, ?_, ?_, ?_, ?_⟩
  · intro f config now ctr h
    simp [NewTemplateManager, h]
  · intro f config now ctr h1 h2
    simp [NewTemplateManager, h1, h2]
  · intro f config now ctr h1 h2 h3
    simp [NewTemplateManager, h1, h2, h3]
  · intro f s h
    simp [isPostgresConnectionString, h]
  · intro f config now ctr tm hok
    cases h1 : config.hasConnectionProvider with
    | false => simp [NewTemplateManager, h1] at hok
    | true =>
    cases h2 : config.hasMigrationRunner with
    | false => simp [NewTemplateManager, h1, h2] at hok
    | true =>
    cases h3 : isPostgresConnectionString f config.adminConnString with
    | false => simp [NewTemplateManager, h1, h2, h3] at hok
    | true =>
      simp only [NewTemplateManager, h1, h2, h3, Bool.not_true, Bool.false_eq_true,
        if_false, Except.ok.injEq] at hok
      subst hok
      refine ⟨?_, ?_, ?_, ?_, ?_, ?_, ?_, ?_, ?_⟩
      · by_cases ht : config.TemplateName = ""
        · simp only [ht, if_true]
          intro hcontra
          have hlen := congrArg String.length hcontra
          simp [generatedTemplateName, String.length_append] at hlen
          exact absurd hlen.1.1.1 (by decide)
        · simp [ht]
      · by_cases ht : config.TestDBPfx = "" <;> simp [ht]
      · by_cases ht : config.AdminDBName = "" <;> simp [ht, defaultAdminDBName]
      · intro ht; simp [ht]
      · intro ht; simp [ht]
      · intro ht; simp [ht]
      · intro ht; simp [ht]
      · intro ht; simp [ht, defaultAdminDBName]
      · intro ht; simp [ht]

/-- Witness for C10: a concrete configuration with empty naming fields
yields a manager whose three name fields are non-empty, with the
defaulting rules applied. -/
theorem newTemplateManager_validation_witness :
    (⟨generatedTemplateName 5 (addInt64 0), "test_", "postgres"⟩ : TemplateManager).templateName ≠ "" ∧
    (⟨generatedTemplateName 5 (addInt64 0), "test_", "postgres"⟩ : TemplateManager).testPfx ≠ "" ∧
    (⟨generatedTemplateName 5 (addInt64 0), "test_", "postgres"⟩ : TemplateManager).adminDBName ≠ "" := by
  have h := newTemplateManager_validation.2.2.2.2 (fun _ => true)
    ⟨true, true, "postgres://h/db", "", "", ""⟩ 5 0
    ⟨generatedTemplateName 5 (addInt64 0), "test_", "postgres"⟩ (by decide)
  exact ⟨h.1, h.2.1, h.2.2.1⟩

/-- C2: `Initialize` is idempotent.  (1) After a successful `Initialize`,
a second call returns success immediately, leaves the state unchanged and
performs no external action at all.  (2) In a fresh call, if the
existence probe finds a database named `templateName` (a `nil` scan
error), `Initialize` returns success having performed only the admin
connect and the probe — no `CREATE DATABASE`, no migrations.  (3) A
no-rows scan result is treated as the non-error `does not exist`
condition: the call proceeds to issue `CREATE DATABASE` and, when all
subsequent steps succeed, returns success. -/
theorem initialize_idempotent :
    (∀ tm s env1 env2, (Initialize tm s env1).1 = none →
       Initialize tm (Initialize tm s env1).2.1 env2 = (none, (Initialize tm s env1).2.1, [])) ∧
    (∀ tm s (env : InitEnv), s.initialized = false → env.adminConnect = none →
       env.templateExistsScan = none →
       Initialize tm s env =
         (none, { s with initialized := true },
          [.connect tm.adminDBName,
           .queryRow tm.adminDBName checkTemplateQuery [tm.templateName]])) ∧
    (∀ tm s (env : InitEnv), s.initialized = false → env.adminConnect = none →
       env.templateExistsScan = some .sqlErrNoRows → env.createExec = none →
       env.templateConnect = none → env.runMigrations = none → env.markTemplate = none →
       (Initialize tm s env).1 = none ∧
       Event.exec tm.adminDBName (createDatabaseQuery tm.templateName) [] ∈
         (Initialize tm s env).2.2) := by
  refine ⟨?_, ?_, ?_⟩
  · intro tm s env1 env2 h
    have hinit : ((Initialize tm s env1).2.1).initialized = true := by
      by_cases hs : s.initialized = true
      · simp [Initialize, hs]
      · rcases hc : createTemplateDatabase tm env1 with ⟨r, tr⟩
        cases r with
        | none => simp [Initialize, hs, hc]
        | some e =>
          exfalso
          simp [Initialize, hs, hc] at h
    generalize (Initialize tm s env1).2.1 = s1 at hinit ⊢
    simp [Initialize, hinit]
  · intro tm s env hs h1 h2
    simp [Initialize, createTemplateDatabase, hs, h1, h2]
  · intro tm s env hs h1 h2 h3 h4 h5 h6
    simp [Initialize, createTemplateDatabase, hs, h1, h2, h3, h4, h5, h6, errIs]

/-- Witness for C2: a concrete successful first call followed by a second
call that returns success with no actions, on a manager whose template
already existed according to the probe. -/
theorem initialize_idempotent_witness :
    Initialize ⟨"tmpl", "test_", "postgres"⟩
        (Initialize ⟨"tmpl", "test_", "postgres"⟩ ⟨false, []⟩
          ⟨none, none, none, none, none, none, none⟩).2.1
        ⟨some (.base "down"), none, none, none, none, none, none⟩ =
      (none,
       (Initialize ⟨"tmpl", "test_", "postgres"⟩ ⟨false, []⟩
         ⟨none, none, none, none, none, none, none⟩).2.1, []) :=
  initialize_idempotent.1 ⟨"tmpl", "test_", "postgres"⟩ ⟨false, []⟩
    ⟨none, none, none, none, none, none, none⟩
    ⟨some (.base "down"), none, none, none, none, none, none⟩ (by decide)

/-- C1: in `Initialize`, once the `CREATE DATABASE` for the template has
succeeded, every subsequent failure (connecting to the template database,
running migrations, or marking it as a template) triggers a compensating
`DROP DATABASE` of the just-created template and the call returns the
failure; if the compensating drop itself fails, its error is joined onto
the original error rather than replacing it. -/
theorem initialize_compensating_drop (tm : TemplateManager) (s : TMState) (env : InitEnv)
    (se : GoErr)
    (hs : s.initialized = false) (h1 : env.adminConnect = none)
    (h2 : env.templateExistsScan = some se)
    (hnr : errIs se .sqlErrNoRows = true ∨ errIs se .pgxErrNoRows = true)
    (h3 : env.createExec = none)
    (hfail : env.templateConnect.isSome ∨ env.runMigrations.isSome ∨ env.markTemplate.isSome) :
    ∃ origErr,
      Event.exec tm.adminDBName (dropDatabaseQuery tm.templateName) [] ∈
        (Initialize tm s env).2.2 ∧
      (Initialize tm s env).1 =
        some (.wrap "failed to create template database"
          (match env.compensatingDrop with
           | none => origErr
           | some de => .join origErr (.wrap "failed to drop template database" de))) := by
  have hnr' : (!errIs se .sqlErrNoRows && !errIs se .pgxErrNoRows) = false := by
    rcases hnr with h | h <;> simp [h]
  rcases hc : env.templateConnect with _ | ec
  · rcases hm : env.runMigrations with _ | em
    · rcases hk : env.markTemplate with _ | ek
      · exfalso
        rcases hfail with h | h | h <;> simp [hc, hm, hk] at h
      · refine ⟨.wrap "failed to mark database as template" ek, ?_⟩
        cases hd : env.compensatingDrop <;>
          simp [Initialize, createTemplateDatabase, hs, h1, h2, hnr', h3, hc, hm, hk, hd]
    · refine ⟨.wrap "failed to run migrations on template" em, ?_⟩
      cases hd : env.compensatingDrop <;>
        simp [Initialize, createTemplateDatabase, hs, h1, h2, hnr', h3, hc, hm, hd]
  · refine ⟨.wrap "failed to connect to template database" ec, ?_⟩
    cases hd : env.compensatingDrop <;>
      simp [Initialize, createTemplateDatabase, hs, h1, h2, hnr', h3, hc, hd]

/-- Witness for C1: a concrete initialization whose migrations fail and
whose compensating drop also fails returns the join of both errors, and
the compensating `DROP DATABASE` of the template was issued. -/
theorem initialize_compensating_drop_witness :
    ∃ origErr,
      Event.exec "postgres" (dropDatabaseQuery "tmpl") [] ∈
        (Initialize ⟨"tmpl", "test_", "postgres"⟩ ⟨false, []⟩
          ⟨none, some .sqlErrNoRows, none, none, some (.base "bad migration"), none,
           some (.base "drop failed")⟩).2.2 ∧
      (Initialize ⟨"tmpl", "test_", "postgres"⟩ ⟨false, []⟩
          ⟨none, some .sqlErrNoRows, none, none, some (.base "bad migration"), none,
           some (.base "drop failed")⟩).1 =
        some (.wrap "failed to create template database"
          (match (some (.base "drop failed") : Option GoErr) with
           | none => origErr
           | some de => .join origErr (.wrap "failed to drop template database" de))) :=
  initialize_compensating_drop ⟨"tmpl", "test_", "postgres"⟩ ⟨false, []⟩
    ⟨none, some .sqlErrNoRows, none, none, some (.base "bad migration"), none,
     some (.base "drop failed")⟩ .sqlErrNoRows rfl rfl rfl (.inl (by decide)) rfl
    (.inr (.inl (by decide)))

/-- C6 counterexample: on an initialized manager whose administrative
connection fails, `Cleanup` terminates returning an error but leaves the
`initialized` flag set to `true`, contradicting the claim that every
terminating execution of `Cleanup` on an initialized manager clears the
flag before returning. -/
theorem cleanup_admin_connect_counterexample :
    ((Cleanup ⟨"tmpl", "test_", "postgres"⟩ ⟨true, ["db1"]⟩
        ⟨some (.base "conn refused"), none, fun _ => none, none, none⟩).2.1).initialized = true ∧
    (Cleanup ⟨"tmpl", "test_", "postgres"⟩ ⟨true, ["db1"]⟩
        ⟨some (.base "conn refused"), none, fun _ => none, none, none⟩).1 =
      some (.wrap "failed to connect to admin database" (.base "conn refused")) :=
  ⟨rfl, rfl⟩

/-- C6 amended: every terminating execution of `Cleanup` on an
initialized manager that gets past opening the administrative connection
sets `initialized` to `false` and returns the joined error of the
test-database cleanup phase and the template-drop phase; if opening the
administrative connection fails, `Cleanup` returns that error with the
state (including the `initialized` flag) unchanged; on a manager that is
not initialized, `Cleanup` returns success immediately and changes
nothing. -/
theorem cleanup_clears_initialized_amended :
    (∀ tm s (env : CleanupEnv), s.initialized = true → env.adminConnect = none →
       ((Cleanup tm s env).2.1).initialized = false ∧
       (Cleanup tm s env).1 =
         goJoin
           ((cleanupTrackedTestDatabases tm s env).1.map
             (.wrap "failed to clean up tracked test databases"))
           ((dropTemplateDatabase tm env).1.map (.wrap "failed to drop template database"))) ∧
    (∀ tm s (env : CleanupEnv) e, s.initialized = true → env.adminConnect = some e →
       Cleanup tm s env =
         (some (.wrap "failed to connect to admin database" e), s, [.connect tm.adminDBName])) ∧
    (∀ tm s (env : CleanupEnv), s.initialized = false → Cleanup tm s env = (none, s, [])) := by
  refine ⟨?_, ?_, ?_⟩
  · intro tm s env hs h1
    constructor <;> simp [Cleanup, hs, h1]
  · intro tm s env e hs h1
    simp [Cleanup, hs, h1]
  · intro tm s env hs
    simp [Cleanup, hs]

/-- Witness for the amended C6: a concrete cleanup in which the template
drop fails still clears the `initialized` flag and returns the joined
error. -/
theorem cleanup_clears_initialized_amended_witness :
    ((Cleanup ⟨"tmpl", "test_", "postgres"⟩ ⟨true, ["db1"]⟩
        ⟨none, none, fun _ => none, none, some (.base "template busy")⟩).2.1).initialized = false ∧
    (Cleanup ⟨"tmpl", "test_", "postgres"⟩ ⟨true, ["db1"]⟩
        ⟨none, none, fun _ => none, none, some (.base "template busy")⟩).1 =
      goJoin
        ((cleanupTrackedTestDatabases ⟨"tmpl", "test_", "postgres"⟩ ⟨true, ["db1"]⟩
            ⟨none, none, fun _ => none, none, some (.base "template busy")⟩).1.map
          (.wrap "failed to clean up tracked test databases"))
        ((dropTemplateDatabase ⟨"tmpl", "test_", "postgres"⟩
            ⟨none, none, fun _ => none, none, some (.base "template busy")⟩).1.map
          (.wrap "failed to drop template database")) :=
  cleanup_clears_initialized_amended.1 ⟨"tmpl", "test_", "postgres"⟩ ⟨true, ["db1"]⟩
    ⟨none, none, fun _ => none, none, some (.base "template busy")⟩ rfl rfl

/-- Whether a non-nil error value contains `t` in the sense of
`errors.Is`. -/
def optErrIs (o : Option GoErr) (t : GoErr) : Bool :=
  match o with
  | none => false
  | some e => errIs e t

theorem errIs_refl (e : GoErr) : errIs e e = true := by
  cases e <;> simp [errIs]

theorem errIs_wrap (m : String) (e t : GoErr) (h : errIs e t = true) :
    errIs (.wrap m e) t = true := by
  simp [errIs, h]

theorem errIs_join_left (a b t : GoErr) (h : errIs a t = true) :
    errIs (.join a b) t = true := by
  simp [errIs, h]

theorem errIs_join_right (a b t : GoErr) (h : errIs b t = true) :
    errIs (.join a b) t = true := by
  simp [errIs, h]

theorem optErrIs_goJoin_left (o1 o2 : Option GoErr) (t : GoErr)
    (h : optErrIs o1 t = true) : optErrIs (goJoin o1 o2) t = true := by
  cases o1 with
  | none => simp [optErrIs] at h
  | some a =>
    cases o2 with
    | none => simpa [optErrIs, goJoin] using h
    | some b =>
      simp only [optErrIs, goJoin]
      exact errIs_join_left a b t (by simpa [optErrIs] using h)

theorem optErrIs_goJoin_right (o1 o2 : Option GoErr) (t : GoErr)
    (h : optErrIs o2 t = true) : optErrIs (goJoin o1 o2) t = true := by
  cases o2 with
  | none => simp [optErrIs] at h
  | some b =>
    cases o1 with
    | none => simpa [optErrIs, goJoin] using h
    | some a =>
      simp only [optErrIs, goJoin]
      exact errIs_join_right a b t (by simpa [optErrIs] using h)

theorem dropLoop_attempts (tm : TemplateManager) (env : CleanupEnv) (names : List String) :
    ∀ (errs : Option GoErr) (tracked : List String) (n : String), n ∈ names →
      Event.exec tm.adminDBName (dropDatabaseQuery n) [] ∈
        (dropLoop tm env names errs tracked).2.2 := by
  induction names with
  | nil => intro errs tracked n h; simp at h
  | cons m rest ih =>
    intro errs tracked n h
    rcases List.mem_cons.mp h with rfl | h'
    · cases hd : env.dropTest n <;> simp [dropLoop, hd]
    · cases hd : env.dropTest m <;> simp only [dropLoop, hd, List.mem_cons] <;>
        exact Or.inr (ih _ _ n h')

theorem dropLoop_mem (tm : TemplateManager) (env : CleanupEnv) (names : List String) :
    ∀ (errs : Option GoErr) (tracked : List String) (m : String),
      m ∈ (dropLoop tm env names errs tracked).2.1 ↔
        m ∈ tracked ∧ (m ∈ names → env.dropTest m ≠ none) := by
  induction names with
  | nil => intro errs tracked m; simp [dropLoop]
  | cons n rest ih =>
    intro errs tracked m
    by_cases hmn : m = n
    · subst hmn
      cases hd : env.dropTest m with
      | none => simp [dropLoop, hd, ih, deleteName]
      | some e => simp [dropLoop, hd, ih]
    · cases hd : env.dropTest n <;>
        simp [dropLoop, hd, ih, deleteName, hmn]

theorem dropLoop_err_mono (tm : TemplateManager) (env : CleanupEnv) (names : List String) :
    ∀ (errs : Option GoErr) (tracked : List String) (t : GoErr), optErrIs errs t = true →
      optErrIs (dropLoop tm env names errs tracked).1 t = true := by
  induction names with
  | nil => intro errs tracked t h; simpa [dropLoop] using h
  | cons n rest ih =>
    intro errs tracked t h
    cases hd : env.dropTest n
    · simp only [dropLoop, hd]
      exact ih _ _ t h
    · simp only [dropLoop, hd]
      exact ih _ _ t (optErrIs_goJoin_left _ _ t h)

theorem dropLoop_err_includes (tm : TemplateManager) (env : CleanupEnv) (names : List String) :
    ∀ (errs : Option GoErr) (tracked : List String) (n : String) (e : GoErr),
      n ∈ names → env.dropTest n = some e →
      optErrIs (dropLoop tm env names errs tracked).1
        (.wrap ("failed to drop database " ++ goQuote n) e) = true := by
  induction names with
  | nil => intro errs tracked n e h _; simp at h
  | cons m rest ih =>
    intro errs tracked n e h hd
    rcases List.mem_cons.mp h with rfl | h'
    · simp only [dropLoop, hd]
      exact dropLoop_err_mono tm env rest _ _ _
        (optErrIs_goJoin_right _ _ _ (by simpa [optErrIs] using errIs_refl _))
    · cases hdm : env.dropTest m <;> simp only [dropLoop, hdm] <;> exact ih _ _ n e h' hd

theorem optErrIs_map_wrap (o : Option GoErr) (m : String) (t : GoErr)
    (h : optErrIs o t = true) : optErrIs (o.map (.wrap m)) t = true := by
  cases o with
  | none => simp [optErrIs] at h
  | some e => exact errIs_wrap m e t (by simpa [optErrIs] using h)

theorem ctd_attempts (tm : TemplateManager) (s : TMState) (env : CleanupEnv) :
    ∀ n ∈ s.createdTestDBs,
      Event.exec tm.adminDBName (dropDatabaseQuery n) [] ∈
        (cleanupTrackedTestDatabases tm s env).2.2 := by
  intro n hn
  have hne : s.createdTestDBs.isEmpty = false := by
    cases hc : s.createdTestDBs
    · rw [hc] at hn; simp at hn
    · simp [hc]
  simp only [cleanupTrackedTestDatabases, hne, Bool.false_eq_true, if_false, List.mem_cons]
  exact Or.inr (dropLoop_attempts tm env _ _ _ n hn)

theorem ctd_mem (tm : TemplateManager) (s : TMState) (env : CleanupEnv) :
    ∀ m, m ∈ ((cleanupTrackedTestDatabases tm s env).2.1).createdTestDBs ↔
      m ∈ s.createdTestDBs ∧ env.dropTest m ≠ none := by
  intro m
  cases hc : s.createdTestDBs.isEmpty
  · simp only [cleanupTrackedTestDatabases, hc, Bool.false_eq_true, if_false]
    rw [dropLoop_mem]
    constructor
    · rintro ⟨h1, h2⟩; exact ⟨h1, h2 h1⟩
    · rintro ⟨h1, h2⟩; exact ⟨h1, fun _ => h2⟩
  · have : s.createdTestDBs = [] := List.isEmpty_iff.mp hc
    simp [cleanupTrackedTestDatabases, hc, this]

theorem ctd_err_includes (tm : TemplateManager) (s : TMState) (env : CleanupEnv) :
    ∀ n e, n ∈ s.createdTestDBs → env.dropTest n = some e →
      optErrIs (cleanupTrackedTestDatabases tm s env).1
        (.wrap ("failed to drop database " ++ goQuote n) e) = true := by
  intro n e hn he
  have hne : s.createdTestDBs.isEmpty = false := by
    cases hc : s.createdTestDBs
    · rw [hc] at hn; simp at hn
    · simp [hc]
  simp only [cleanupTrackedTestDatabases, hne, Bool.false_eq_true, if_false]
  exact dropLoop_err_includes tm env _ _ _ n e hn he

/-- C3: `Cleanup` uses accumulate-and-continue.  On an initialized
manager whose administrative connection opens, with at least one tracked
database whose drop fails: a `DROP DATABASE` is still attempted for every
tracked database; the template unmark is still attempted (and its drop,
when the unmark succeeds); the surviving tracked set is exactly the
tracked names whose drop failed; the returned error is non-nil and, in the
sense of `errors.Is`, includes for each failed drop the error naming that
database. -/
theorem cleanup_accumulates_and_continues (tm : TemplateManager) (s : TMState)
    (env : CleanupEnv) (n0 : String) (e0 : GoErr)
    (hs : s.initialized = true) (h1 : env.adminConnect = none)
    (hn0 : n0 ∈ s.createdTestDBs) (he0 : env.dropTest n0 = some e0) :
    (∀ n, n ∈ s.createdTestDBs →
       Event.exec tm.adminDBName (dropDatabaseQuery n) [] ∈ (Cleanup tm s env).2.2) ∧
    Event.exec tm.adminDBName (unmarkTemplateQuery tm.templateName) [] ∈
      (Cleanup tm s env).2.2 ∧
    (env.unmarkExec = none →
       Event.exec tm.adminDBName (dropDatabaseQuery tm.templateName) [] ∈
         (Cleanup tm s env).2.2) ∧
    (∀ m, m ∈ ((Cleanup tm s env).2.1).createdTestDBs ↔
       m ∈ s.createdTestDBs ∧ env.dropTest m ≠ none) ∧
    (∀ n e, n ∈ s.createdTestDBs → env.dropTest n = some e →
       optErrIs (Cleanup tm s env).1 (.wrap ("failed to drop database " ++ goQuote n) e) = true) ∧
    (Cleanup tm s env).1 ≠ none := by
  have hclean : Cleanup tm s env =
      ((goJoin
          ((cleanupTrackedTestDatabases tm s env).1.map
            (.wrap "failed to clean up tracked test databases"))
          ((dropTemplateDatabase tm env).1.map (.wrap "failed to drop template database"))),
       { (cleanupTrackedTestDatabases tm s env).2.1 with initialized := false },
       Event.connect tm.adminDBName ::
         ((cleanupTrackedTestDatabases tm s env).2.2 ++ (dropTemplateDatabase tm env).2)) := by
    simp [Cleanup, hs, h1]
  refine ⟨?_, ?_, ?_, ?_, ?_, ?_⟩
  · intro n hn
    rw [hclean]
    simp only [List.mem_cons, List.mem_append]
    exact Or.inr (Or.inl (ctd_attempts tm s env n hn))
  · rw [hclean]
    simp only [List.mem_cons, List.mem_append]
    refine Or.inr (Or.inr ?_)
    cases hu : env.unmarkExec <;> simp [dropTemplateDatabase, hu]
  · intro hu
    rw [hclean]
    simp only [List.mem_cons, List.mem_append]
    refine Or.inr (Or.inr ?_)
    simp [dropTemplateDatabase, hu]
  · intro m
    rw [hclean]
    exact ctd_mem tm s env m
  · intro n e hn he
    rw [hclean]
    exact optErrIs_goJoin_left _ _ _
      (optErrIs_map_wrap _ _ _ (ctd_err_includes tm s env n e hn he))
  · have h := optErrIs_goJoin_left
      ((cleanupTrackedTestDatabases tm s env).1.map
        (.wrap "failed to clean up tracked test databases"))
      ((dropTemplateDatabase tm env).1.map (.wrap "failed to drop template database")) _
      (optErrIs_map_wrap _ _ _ (ctd_err_includes tm s env n0 e0 hn0 he0))
    rw [hclean]
    intro hcontra
    have hcontra' : goJoin
        ((cleanupTrackedTestDatabases tm s env).1.map
          (.wrap "failed to clean up tracked test databases"))
        ((dropTemplateDatabase tm env).1.map
          (.wrap "failed to drop template database")) = none := hcontra
    rw [hcontra'] at h
    simp [optErrIs] at h

/-- Witness for C3: a concrete cleanup of two tracked databases where the
first drop fails drops the second, unmarks and drops the template, keeps
only the failed name tracked, and returns an error naming the failure. -/
theorem cleanup_accumulates_and_continues_witness :
    Event.exec "postgres" (dropDatabaseQuery "db2") [] ∈
      (Cleanup ⟨"tmpl", "test_", "postgres"⟩ ⟨true, ["db1", "db2"]⟩
        ⟨none, none, fun n => if n = "db1" then some (.base "db1 busy") else none,
         none, none⟩).2.2 ∧
    (("db1" ∈ ((Cleanup ⟨"tmpl", "test_", "postgres"⟩ ⟨true, ["db1", "db2"]⟩
        ⟨none, none, fun n => if n = "db1" then some (.base "db1 busy") else none,
         none, none⟩).2.1).createdTestDBs) ↔
      ("db1" ∈ (["db1", "db2"] : List String) ∧
        (if "db1" = "db1" then some (GoErr.base "db1 busy") else none) ≠ none)) ∧
    optErrIs (Cleanup ⟨"tmpl", "test_", "postgres"⟩ ⟨true, ["db1", "db2"]⟩
        ⟨none, none, fun n => if n = "db1" then some (.base "db1 busy") else none,
         none, none⟩).1
      (.wrap ("failed to drop database " ++ goQuote "db1") (.base "db1 busy")) = true := by
  have h := cleanup_accumulates_and_continues ⟨"tmpl", "test_", "postgres"⟩
    ⟨true, ["db1", "db2"]⟩
    ⟨none, none, fun n => if n = "db1" then some (.base "db1 busy") else none, none, none⟩
    "db1" (.base "db1 busy") rfl rfl (by decide) (by decide)
  exact ⟨h.1 "db2" (by decide), h.2.2.2.1 "db1", h.2.2.2.2.1 "db1" (.base "db1 busy")
    (by decide) (by decide)⟩

/-- C5: the tracked-test-databases set invariant.  `Initialize` never
touches the set.  A name is added exactly when a `CreateTestDatabase`
call completes fully successfully (then the set gains the resolved name);
a failed creation never adds a name, and the only removal a failed
creation can perform is of its own resolved name through a *successful*
compensating drop (the drop statement having been issued).  An explicit
`DropTestDatabase` removes the name exactly on success and leaves the
state untouched on failure.  `Cleanup` never adds names, removes a name
only when its individual drop succeeded, and keeps every name whose drop
failed. -/
theorem tracked_set_invariant :
    (∀ tm s (env : InitEnv), ((Initialize tm s env).2.1).createdTestDBs = s.createdTestDBs) ∧
    (∀ tm s ctr now (env : CreateEnv) names dbName,
       (CreateTestDatabase tm s ctr now env names).1 = .ok dbName →
       ((CreateTestDatabase tm s ctr now env names).2.1).createdTestDBs =
         storeName dbName s.createdTestDBs) ∧
    (∀ tm s ctr now (env : CreateEnv) names e,
       (CreateTestDatabase tm s ctr now env names).1 = .error e →
       ∀ m, m ∈ ((CreateTestDatabase tm s ctr now env names).2.1).createdTestDBs →
         m ∈ s.createdTestDBs) ∧
    (∀ tm s ctr now (env : CreateEnv) names e,
       (CreateTestDatabase tm s ctr now env names).1 = .error e →
       ∀ m, m ∈ s.createdTestDBs →
         m ∉ ((CreateTestDatabase tm s ctr now env names).2.1).createdTestDBs →
         env.compensatingDrop = none ∧
         Event.exec tm.adminDBName (dropDatabaseQuery m) [] ∈
           (CreateTestDatabase tm s ctr now env names).2.2.2) ∧
    (∀ tm s (env : DropEnv) dbName, (DropTestDatabase tm s env dbName).1 = none →
       ((DropTestDatabase tm s env dbName).2.1).createdTestDBs =
         deleteName dbName s.createdTestDBs) ∧
    (∀ tm s (env : DropEnv) dbName e, (DropTestDatabase tm s env dbName).1 = some e →
       (DropTestDatabase tm s env dbName).2.1 = s) ∧
    (∀ tm s (env : CleanupEnv) m, m ∈ ((Cleanup tm s env).2.1).createdTestDBs →
       m ∈ s.createdTestDBs) ∧
    (∀ tm s (env : CleanupEnv) m, m ∈ s.createdTestDBs →
       m ∉ ((Cleanup tm s env).2.1).createdTestDBs → env.dropTest m = none) ∧
    (∀ tm s (env : CleanupEnv) m e, m ∈ s.createdTestDBs → env.dropTest m = some e →
       m ∈ ((Cleanup tm s env).2.1).createdTestDBs) := by
  have hCleanupState : ∀ tm s (env : CleanupEnv), s.initialized = true →
      env.adminConnect = none →
      ((Cleanup tm s env).2.1).createdTestDBs =
        ((cleanupTrackedTestDatabases tm s env).2.1).createdTestDBs := by
    intro tm s env hs h1
    simp [Cleanup, hs, h1]
  have hCleanupId : ∀ tm s (env : CleanupEnv),
      ¬(s.initialized = true ∧ env.adminConnect = none) → (Cleanup tm s env).2.1 = s := by
    intro tm s env h
    cases hs : s.initialized
    · simp [Cleanup, hs]
    · cases ha : env.adminConnect with
      | none => exact absurd ⟨hs, ha⟩ h
      | some e => simp [Cleanup, hs, ha]
  refine ⟨?_, ?_, ?_, ?_, ?_, ?_, ?_, ?_, ?_⟩
  · intro tm s env
    by_cases hs : s.initialized = true
    · simp [Initialize, hs]
    · rcases hc : createTemplateDatabase tm env with ⟨r, tr⟩
      cases r <;> simp [Initialize, hs, hc]
  · intro tm s ctr now env names dbName h
    cases ha : env.adminConnect with
    | some e => exact absurd h (by simp [CreateTestDatabase, ha])
    | none =>
    cases hc : env.createExec with
    | some e => exact absurd h (by simp [CreateTestDatabase, ha, hc])
    | none =>
    cases ht : env.testConnect with
    | some e =>
      exfalso
      cases hd : env.compensatingDrop <;>
        simp [CreateTestDatabase, ha, hc, ht, hd] at h
    | none =>
      have hnm : (resolveTestDBName tm ctr now names).1 = dbName := by
        simpa [CreateTestDatabase, ha, hc, ht] using h
      simp [CreateTestDatabase, ha, hc, ht, hnm]
  · intro tm s ctr now env names e h m hm
    cases ha : env.adminConnect with
    | some e2 => simpa [CreateTestDatabase, ha] using hm
    | none =>
    cases hc : env.createExec with
    | some e2 => simpa [CreateTestDatabase, ha, hc] using hm
    | none =>
    cases ht : env.testConnect with
    | some e2 =>
      cases hd : env.compensatingDrop with
      | none =>
        have := by simpa [CreateTestDatabase, ha, hc, ht, hd, deleteName,
          List.mem_filter] using hm
        exact this.1
      | some de => simpa [CreateTestDatabase, ha, hc, ht, hd] using hm
    | none => exact absurd h (by simp [CreateTestDatabase, ha, hc, ht])
  · intro tm s ctr now env names e h m hm hnot
    cases ha : env.adminConnect with
    | some e2 => exact absurd hm (by simpa [CreateTestDatabase, ha] using hnot)
    | none =>
    cases hc : env.createExec with
    | some e2 => exact absurd hm (by simpa [CreateTestDatabase, ha, hc] using hnot)
    | none =>
    cases ht : env.testConnect with
    | some e2 =>
      cases hd : env.compensatingDrop with
      | none =>
        have hmn : m = (resolveTestDBName tm ctr now names).1 := by
          by_contra hne
          exact hnot (by simp [CreateTestDatabase, ha, hc, ht, hd, deleteName,
            List.mem_filter, hm, hne])
        refine ⟨rfl, ?_⟩
        simp [CreateTestDatabase, ha, hc, ht, hd, hmn]
      | some de => exact absurd hm (by simpa [CreateTestDatabase, ha, hc, ht, hd] using hnot)
    | none => exact absurd h (by simp [CreateTestDatabase, ha, hc, ht])
  · intro tm s env dbName h
    cases h1 : env.templateConnect with
    | some e => exact absurd h (by simp [DropTestDatabase, h1])
    | none =>
    cases h2 : env.terminateExec with
    | some e => exact absurd h (by simp [DropTestDatabase, h1, h2])
    | none =>
    cases h3 : env.dropExec with
    | some e => exact absurd h (by simp [DropTestDatabase, h1, h2, h3])
    | none => simp [DropTestDatabase, h1, h2, h3]
  · intro tm s env dbName e h
    cases h1 : env.templateConnect with
    | some e2 => simp [DropTestDatabase, h1]
    | none =>
    cases h2 : env.terminateExec with
    | some e2 => simp [DropTestDatabase, h1, h2]
    | none =>
    cases h3 : env.dropExec with
    | some e2 => simp [DropTestDatabase, h1, h2, h3]
    | none => exact absurd h (by simp [DropTestDatabase, h1, h2, h3])
  · intro tm s env m hm
    by_cases hrun : s.initialized = true ∧ env.adminConnect = none
    · rw [hCleanupState tm s env hrun.1 hrun.2] at hm
      exact ((ctd_mem tm s env m).mp hm).1
    · rw [hCleanupId tm s env hrun] at hm
      exact hm
  · intro tm s env m hm hnot
    by_cases hrun : s.initialized = true ∧ env.adminConnect = none
    · rw [hCleanupState tm s env hrun.1 hrun.2] at hnot
      cases hd : env.dropTest m with
      | none => rfl
      | some e => exact absurd ((ctd_mem tm s env m).mpr ⟨hm, by simp [hd]⟩) hnot
    · rw [hCleanupId tm s env hrun] at hnot
      exact absurd hm hnot
  · intro tm s env m e hm he
    by_cases hrun : s.initialized = true ∧ env.adminConnect = none
    · rw [hCleanupState tm s env hrun.1 hrun.2]
      exact (ctd_mem tm s env m).mpr ⟨hm, by simp [he]⟩
    · rw [hCleanupId tm s env hrun]
      exact hm

/-- Witness for C5: a concrete fully-successful creation adds exactly the
supplied name to the tracked set. -/
theorem tracked_set_invariant_witness :
    ((CreateTestDatabase ⟨"tmpl", "test_", "postgres"⟩ ⟨true, ["old"]⟩ 0 5
        ⟨none, none, none, none⟩ ["mydb"]).2.1).createdTestDBs =
      storeName "mydb" ["old"] :=
  tracked_set_invariant.2.1 ⟨"tmpl", "test_", "postgres"⟩ ⟨true, ["old"]⟩ 0 5
    ⟨none, none, none, none⟩ ["mydb"] "mydb" (by decide)

/-! Supporting development for the uniqueness of auto-generated test
database names: the decimal rendering used by `%d` (Lean's `Nat.repr` /
`Nat.toDigits`) is injective and produces no underscore, so the counter
component can be recovered from a generated name as the segment after
the last underscore. -/

theorem iterCtr_eq (k : Nat) (hk : k < 2 ^ 63) : iterCtr 0 k = (k : Int) := by
  induction k with
  | zero => rfl
  | succ n ih =>
    have hn : n < 2 ^ 63 := Nat.lt_of_succ_lt hk
    rw [iterCtr, ih hn, addInt64]
    have h1 : ((n : Int) + 1 + 2 ^ 63) % 2 ^ 64 = (n : Int) + 1 + 2 ^ 63 := by
      apply Int.emod_eq_of_lt
      · positivity
      · have : (n : Int) + 1 < 2 ^ 63 := by exact_mod_cast hk
        norm_num at this ⊢
        omega
    rw [h1]
    push_cast
    ring

theorem toDigitsCore_fuel : ∀ (f1 f2 n : Nat) (ds : List Char), n < f1 → n < f2 →
    Nat.toDigitsCore 10 f1 n ds = Nat.toDigitsCore 10 f2 n ds := by
  intro f1
  induction f1 with
  | zero => intro f2 n ds h1 _; omega
  | succ g1 ih =>
    intro f2 n ds h1 h2
    cases f2 with
    | zero => omega
    | succ g2 =>
      simp only [Nat.toDigitsCore]
      by_cases h : n / 10 = 0
      · simp [h]
      · simp only [h, if_false]
        have hpos : 0 < n := by
          rcases Nat.eq_zero_or_pos n with h0 | h0
          · exact absurd (by simp [h0]) h
          · exact h0
        have hlt : n / 10 < n := Nat.div_lt_self hpos (by norm_num)
        exact ih g2 (n / 10) _ (by omega) (by omega)

theorem toDigitsCore_append : ∀ (f n : Nat) (ds : List Char),
    Nat.toDigitsCore 10 f n ds = Nat.toDigitsCore 10 f n [] ++ ds := by
  intro f
  induction f with
  | zero => intro n ds; simp [Nat.toDigitsCore]
  | succ g ih =>
    intro n ds
    simp only [Nat.toDigitsCore]
    by_cases h : n / 10 = 0
    · simp [h]
    · simp only [h, if_false]
      rw [ih (n / 10) (Nat.digitChar (n % 10) :: ds), ih (n / 10) [Nat.digitChar (n % 10)]]
      simp

theorem toDigits_unfold (n : Nat) :
    Nat.toDigits 10 n =
      if n < 10 then [Nat.digitChar n]
      else Nat.toDigits 10 (n / 10) ++ [Nat.digitChar (n % 10)] := by
  by_cases h : n < 10
  · have h0 : n / 10 = 0 := Nat.div_eq_of_lt h
    simp [Nat.toDigits, Nat.toDigitsCore, h0, h, Nat.mod_eq_of_lt h]
  · have h0 : n / 10 ≠ 0 := by
      intro hc
      rw [Nat.div_eq_zero_iff (by norm_num)] at hc
      exact h hc
    simp only [Nat.toDigits, Nat.toDigitsCore, h0, if_false, h]
    rw [toDigitsCore_append]
    congr 1
    have hpos : 0 < n := by omega
    exact toDigitsCore_fuel n (n / 10 + 1) (n / 10) []
      (by have := Nat.div_lt_self hpos (by norm_num : (1:Nat) < 10); omega)
      (Nat.lt_succ_self _)

/-- The numeric value of a decimal digit character. -/
def charToDigit (c : Char) : Nat := c.toNat - 48

/-- Decimal decoding of a digit string, inverse to `Nat.toDigits 10`. -/
def decodeDigits (l : List Char) : Nat :=
  l.foldl (fun a c => 10 * a + charToDigit c) 0

theorem charToDigit_digitChar (d : Nat) (h : d < 10) :
    charToDigit (Nat.digitChar d) = d := by
  interval_cases d <;> decide

theorem digitChar_ne_underscore (d : Nat) (h : d < 10) :
    (Nat.digitChar d != '_') = true := by
  interval_cases d <;> decide

theorem decodeDigits_concat (xs : List Char) (c : Char) :
    decodeDigits (xs ++ [c]) = 10 * decodeDigits xs + charToDigit c := by
  simp [decodeDigits, List.foldl_append]

theorem decode_toDigits : ∀ n, decodeDigits (Nat.toDigits 10 n) = n := by
  intro n
  induction n using Nat.strong_induction_on with
  | _ n ih =>
    rw [toDigits_unfold]
    by_cases h : n < 10
    · simp [h, decodeDigits, List.foldl, charToDigit_digitChar n h]
    · have hpos : 0 < n := by omega
      have hlt : n / 10 < n := Nat.div_lt_self hpos (by norm_num)
      simp only [h, if_false]
      rw [decodeDigits_concat, ih (n / 10) hlt,
        charToDigit_digitChar (n % 10) (Nat.mod_lt n (by norm_num))]
      exact Nat.div_add_mod n 10

theorem toDigits_inj (m n : Nat) (h : Nat.toDigits 10 m = Nat.toDigits 10 n) : m = n := by
  have := congrArg decodeDigits h
  rwa [decode_toDigits, decode_toDigits] at this

theorem toDigits_ne_underscore : ∀ n, ∀ c ∈ Nat.toDigits 10 n, (c != '_') = true := by
  intro n
  induction n using Nat.strong_induction_on with
  | _ n ih =>
    intro c hc
    rw [toDigits_unfold] at hc
    by_cases h : n < 10
    · simp [h] at hc
      subst hc
      exact digitChar_ne_underscore n h
    · have hpos : 0 < n := by omega
      have hlt : n / 10 < n := Nat.div_lt_self hpos (by norm_num)
      simp only [h, if_false, List.mem_append, List.mem_singleton] at hc
      rcases hc with hc | hc
      · exact ih (n / 10) hlt c hc
      · subst hc
        exact digitChar_ne_underscore (n % 10) (Nat.mod_lt n (by norm_num))

/-- The segment of a character list after its last underscore. -/
def lastComp (l : List Char) : List Char :=
  (l.reverse.takeWhile (fun c => c != '_')).reverse

theorem lastComp_append (pre suf : List Char) (h : ∀ c ∈ suf, (c != '_') = true) :
    lastComp (pre ++ '_' :: suf) = suf := by
  unfold lastComp
  rw [List.reverse_append, List.reverse_cons, List.append_assoc,
    List.takeWhile_append_of_pos (fun a ha => h a (List.mem_reverse.mp ha))]
  simp [List.takeWhile_cons]

theorem toString_intOfNat (i : Nat) : toString ((i : Nat) : Int) = Nat.repr i := rfl

theorem repr_data (i : Nat) : (Nat.repr i).data = Nat.toDigits 10 i := rfl

theorem generatedTestDBName_data (tm : TemplateManager) (t : Int) (i : Nat) :
    (generatedTestDBName tm t (i : Int)).data =
      (tm.testPfx ++ toString t).data ++ '_' :: Nat.toDigits 10 i := by
  simp only [generatedTestDBName, String.data_append]
  rw [toString_intOfNat, repr_data]
  simp

/-- C8: auto-generated test database names combine the configured prefix,
a timestamp and the process-wide atomically incremented counter
(`globalTestDBCounter`, zero-initialised at process start).  Taking the
linearisation of the concurrent calls, the `k`-th auto-named creation —
on whichever manager `mgr k` it runs and whatever timestamp `ts k` it
observes — uses counter value `iterCtr 0 k`.  For any two distinct calls
within the `int64` range (fewer than `2^63` calls, so the counter never
wraps) the counter strictly increases and the generated names differ. -/
theorem generated_names_distinct (mgr : Nat → TemplateManager) (ts : Nat → Int)
    (i j : Nat) (hi : 0 < i) (hij : i < j) (hj : j < 2 ^ 63) :
    iterCtr 0 i < iterCtr 0 j ∧
    generatedTestDBName (mgr i) (ts i) (iterCtr 0 i) ≠
      generatedTestDBName (mgr j) (ts j) (iterCtr 0 j) := by
  have hi63 : i < 2 ^ 63 := lt_trans hij hj
  constructor
  · rw [iterCtr_eq i hi63, iterCtr_eq j hj]
    exact_mod_cast hij
  · intro heq
    rw [iterCtr_eq i hi63, iterCtr_eq j hj] at heq
    have hdata := congrArg String.data heq
    rw [generatedTestDBName_data, generatedTestDBName_data] at hdata
    have hlast := congrArg lastComp hdata
    rw [lastComp_append _ _ (toDigits_ne_underscore i),
      lastComp_append _ _ (toDigits_ne_underscore j)] at hlast
    exact absurd (toDigits_inj i j hlast) (Nat.ne_of_lt hij)

/-- Witness for C8: the first and second auto-named creations, on two
different managers with different prefixes and timestamps, get strictly
increasing counter values and distinct names. -/
theorem generated_names_distinct_witness :
    iterCtr 0 1 < iterCtr 0 2 ∧
    generatedTestDBName ⟨"tm1", "test_", "postgres"⟩ 5 (iterCtr 0 1) ≠
      generatedTestDBName ⟨"tm2", "t_", "postgres"⟩ 7 (iterCtr 0 2) :=
  generated_names_distinct
    (fun k => if k = 1 then ⟨"tm1", "test_", "postgres"⟩ else ⟨"tm2", "t_", "postgres"⟩)
    (fun k => if k = 1 then 5 else 7) 1 2 (by decide) (by decide) (by decide)

end Pgdbtemplate
